import Mathlib

/-!
Verification of the Hackoverflow-bot admission/dispatch pipeline.

Shallow embedding of:
- the per-user rate limiter (`checkRateLimit`) from the LLM module,
- the conversation cache (`addToConversation`, `buildConversationHistory`),
- the dispatcher / queue engine (`processQueue` retry logic, the in-flight
  counter `activeGroqRequests`, `processGroqRequest` outcome handling),
- the startup queue reload (`loadPersistedQueue` + `askLLM` enqueue),
- the context selector (`selectRelevantContext`).

Times are `Date.now()` values in milliseconds, modelled as `Nat`.
-/

namespace HackoverflowBot

/-- Whether the character list `s` starts with `sub`. -/
def listStartsWith : List Char → List Char → Bool
  | _, [] => true
  | [], _ :: _ => false
  | a :: as, b :: bs => a = b && listStartsWith as bs

/-- Whether the character list `s` contains `sub` as a contiguous run. -/
def listContainsSeq : List Char → List Char → Bool
  | [], sub => listStartsWith [] sub
  | a :: as, sub => listStartsWith (a :: as) sub || listContainsSeq as sub

/-- JS `s.includes(sub)`: substring containment on the character sequence. -/
def strIncludes (s sub : String) : Bool := listContainsSeq s.data sub.data

/-- JS `s.toLowerCase()`; the queries and keyword lists are ASCII. -/
def toLowerCase (s : String) : String := String.mk (s.data.map Char.toLower)

/-- JS `Math.max(...l)` for a nonempty list of numbers (0 on empty; every
call site guards nonemptiness). -/
def listMax : List Nat → Nat
  | [] => 0
  | h :: t => max h (listMax t)

/-- JS `Math.min(...l)` for a nonempty list of numbers (0 on empty; every
call site guards nonemptiness). -/
def listMin : List Nat → Nat
  | [] => 0
  | [h] => h
  | h :: t => min h (listMin t)

/-- JS `Math.ceil(a / 1000)` for a nonnegative millisecond quantity. -/
def ceilDiv1000 (a : Nat) : Nat := (a + 999) / 1000

/-! ## Rate limiter (part_004, second module: `checkRateLimit`) -/

def RATE_LIMIT_WINDOW_MS : Nat := 60000

def MAX_REQUESTS_PER_WINDOW : Nat := 10

def COOLDOWN_BETWEEN_REQUESTS_MS : Nat := 3000

structure UserRateLimit where
  timestamps : List Nat
  blockedUntil : Option Nat := none
deriving DecidableEq

structure RateLimitResult where
  allowed : Bool
  waitTime : Option Nat := none
deriving DecidableEq

/-- The body of `checkRateLimit` past the blocked-until early return:
prune, sliding-window cap, per-user cooldown, then record the timestamp.
The returned record is the state left behind in `userRateLimits` (the map
entry is mutated in place by the pruning assignment, so the pruned list
persists on every path past the early return). -/
def checkRateLimitWindow (now : Nat) (userLimit : UserRateLimit) :
    RateLimitResult × UserRateLimit :=
  let timestamps := userLimit.timestamps.filter (fun ts => now - ts < RATE_LIMIT_WINDOW_MS)
  if MAX_REQUESTS_PER_WINDOW ≤ timestamps.length then
    let oldestTimestamp := listMin timestamps
    let waitTime := ceilDiv1000 (RATE_LIMIT_WINDOW_MS - (now - oldestTimestamp))
    ({ allowed := false, waitTime := some waitTime },
     { timestamps := timestamps, blockedUntil := some (now + waitTime * 1000) })
  else if 0 < timestamps.length ∧ now - listMax timestamps < COOLDOWN_BETWEEN_REQUESTS_MS then
    let waitTime := ceilDiv1000 (COOLDOWN_BETWEEN_REQUESTS_MS - (now - listMax timestamps))
    ({ allowed := false, waitTime := some waitTime },
     { timestamps := timestamps, blockedUntil := userLimit.blockedUntil })
  else
    ({ allowed := true, waitTime := none },
     { timestamps := timestamps ++ [now], blockedUntil := userLimit.blockedUntil })

/-- `checkRateLimit(userId)` for one user's record: the blocked-until early
return, then the window logic. -/
def checkRateLimit (now : Nat) (userLimit : UserRateLimit) :
    RateLimitResult × UserRateLimit :=
  match userLimit.blockedUntil with
  | some b =>
    if now < b then
      ({ allowed := false, waitTime := some (ceilDiv1000 (b - now)) }, userLimit)
    else
      checkRateLimitWindow now userLimit
  | none => checkRateLimitWindow now userLimit

/-- Driver: one user's sequence of calls to `checkRateLimit` at the given
times; returns the admitted times in order. -/
def runRateLimiter (u : UserRateLimit) : List Nat → List Nat
  | [] => []
  | now :: rest =>
    if (checkRateLimit now u).1.allowed then
      now :: runRateLimiter (checkRateLimit now u).2 rest
    else
      runRateLimiter (checkRateLimit now u).2 rest

/-! ## Conversation cache (part_004, first module) -/

def MAX_CONVERSATION_LENGTH : Nat := 10

inductive ChatRole
  | user
  | assistant
deriving DecidableEq

structure ConvMessage where
  role : ChatRole
  content : String
  timestamp : Nat
deriving DecidableEq

structure ConversationContext where
  userId : String
  channelId : String
  messages : List ConvMessage
  lastActivity : Nat
deriving DecidableEq

/-- The `conversationCache` Map, as an association list. -/
abbrev ConversationCache := List (String × ConversationContext)

def cacheGet (cache : ConversationCache) (key : String) : Option ConversationContext :=
  (cache.find? (fun p => p.1 = key)).map (·.2)

def cacheSet (cache : ConversationCache) (key : String) (v : ConversationContext) :
    ConversationCache :=
  match cache with
  | [] => [(key, v)]
  | (k, w) :: rest => if k = key then (key, v) :: rest else (k, w) :: cacheSet rest key v

/-- `getContextKey(userId, channelId)`. -/
def getContextKey (userId channelId : String) : String := userId ++ "-" ++ channelId

/-- `getConversationContext`: fetch or create the per-(user,channel) record. -/
def getConversationContext (now : Nat) (cache : ConversationCache)
    (userId channelId : String) : ConversationContext :=
  match cacheGet cache (getContextKey userId channelId) with
  | some ctx => ctx
  | none => { userId := userId, channelId := channelId, messages := [], lastActivity := now }

/-- JS `l.slice(-n)`: the last `min n l.length` elements. -/
def sliceLast (n : Nat) (l : List α) : List α := l.drop (l.length - n)

/-- `addToConversation`: push the message, truncate to the most recent
`MAX_CONVERSATION_LENGTH`, refresh `lastActivity`, store. -/
def addToConversation (now : Nat) (cache : ConversationCache)
    (userId channelId : String) (role : ChatRole) (content : String) : ConversationCache :=
  let ctx := getConversationContext now cache userId channelId
  let pushed := ctx.messages ++ [{ role := role, content := content, timestamp := now }]
  let msgs := if MAX_CONVERSATION_LENGTH < pushed.length
    then sliceLast MAX_CONVERSATION_LENGTH pushed else pushed
  cacheSet cache (getContextKey userId channelId)
    { ctx with messages := msgs, lastActivity := now }

/-- `buildConversationHistory`: the most recent 6 messages as role/content
pairs, or the empty list when no context exists. -/
def buildConversationHistory (cache : ConversationCache)
    (userId channelId : String) : List (ChatRole × String) :=
  match cacheGet cache (getContextKey userId channelId) with
  | none => []
  | some ctx =>
    if ctx.messages.length = 0 then []
    else (sliceLast 6 ctx.messages).map (fun m => (m.role, m.content))

structure AppendOp where
  userId : String
  channelId : String
  role : ChatRole
  content : String
  time : Nat

/-- A sequence of `addToConversation` calls against a cache. -/
def applyAppends (cache : ConversationCache) : List AppendOp → ConversationCache
  | [] => cache
  | op :: rest =>
    applyAppends (addToConversation op.time cache op.userId op.channelId op.role op.content) rest

/-! ## Dispatcher / queue engine (part_004, first module) -/

def MAX_CONCURRENT_GROQ_REQUESTS : Nat := 12

/-- A `QueuedRequest` minus the `resolve`/`reject` callback handles. -/
structure QueuedRequest where
  id : String
  userQuery : String
  userId : Option String := none
  channelId : Option String := none
  messageId : Option String := none
  timestamp : Nat
  retryCount : Nat
deriving DecidableEq

/-- The shape of a Groq SDK error as inspected by `processGroqRequest`:
`error?.status` and whether `error?.error?.type === "tokens"`. -/
structure GroqApiError where
  status : Option Nat := none
  errorTypeTokens : Bool := false
deriving DecidableEq

def EMPTY_RESPONSE_MESSAGE : String :=
  "Sorry, I could not generate a response. Please try again."

def TOKEN_LIMIT_MESSAGE : String :=
  "Sorry, your question is too complex. Please try asking in a simpler way or break it into smaller questions!"

def RATE_LIMIT_MESSAGE : String :=
  "Sorry, the AI service has reached its rate limit for today. Please try again later or contact hackoverflow@mes.ac.in for assistance."

def AUTH_FAILURE_MESSAGE : String :=
  "AI service authentication failed. Please contact hackoverflow@mes.ac.in for assistance."

def FORBIDDEN_MESSAGE : String :=
  "AI service access denied. Please contact hackoverflow@mes.ac.in for assistance."

def UNAVAILABLE_MESSAGE : String :=
  "The AI service is temporarily unavailable. Please try again in a moment."

/-- The `catch` ladder of `processGroqRequest`: recognised statuses are
turned into resolved user-facing messages; anything else is re-thrown
for the retry logic. -/
def handleGroqApiError (e : GroqApiError) : Option String :=
  if e.status = some 413 ∨ e.errorTypeTokens then some TOKEN_LIMIT_MESSAGE
  else if e.status = some 429 then some RATE_LIMIT_MESSAGE
  else if e.status = some 401 then some AUTH_FAILURE_MESSAGE
  else if e.status = some 403 then some FORBIDDEN_MESSAGE
  else if e.status = some 503 then some UNAVAILABLE_MESSAGE
  else none

/-- One attempt of `processGroqRequest`, as a function of the upstream
call's outcome. `.ok content` carries `choices[0]?.message?.content || ""`
(so `""` is the missing/empty-response case); `.error e` is a thrown SDK
error. The result is the settled promise: `.ok` resolves, `.error`
propagates to the retry logic in `processQueue`. -/
def processGroqRequest (upstream : Except GroqApiError String) :
    Except GroqApiError String :=
  match upstream with
  | .ok content =>
    if content = "" then .ok EMPTY_RESPONSE_MESSAGE
    else .ok content.trim
  | .error e =>
    match handleGroqApiError e with
    | some msg => .ok msg
    | none => .error e

structure DispatchStats where
  totalRequests : Nat := 0
  successfulRequests : Nat := 0
  failedRequests : Nat := 0
deriving DecidableEq

/-- How one query's lifecycle ends in `processQueue`. -/
inductive QueryFate
  | resolved (response : String)
  | rejected (e : GroqApiError)
  | pending (r : QueuedRequest)
deriving DecidableEq

/-- One query's lifecycle through `processQueue`: each element of the list
is the upstream outcome of one attempt. Mirrors the `.then`/`.catch`
handlers: success resolves the caller and bumps `successfulRequests`;
a thrown error with `retryCount < 3` bumps `retryCount` and requeues
(counted in the third component); otherwise the caller is rejected and
`failedRequests` bumps once. `totalRequests` bumps at the top of every
`processGroqRequest` call. -/
def runQueryAttempts (r : QueuedRequest) (stats : DispatchStats) :
    List (Except GroqApiError String) → QueryFate × DispatchStats × Nat
  | [] => (.pending r, stats, 0)
  | upstream :: rest =>
    let stats1 := { stats with totalRequests := stats.totalRequests + 1 }
    match processGroqRequest upstream with
    | .ok response =>
      (.resolved response,
       { stats1 with successfulRequests := stats1.successfulRequests + 1 }, 0)
    | .error e =>
      if r.retryCount < 3 then
        let next := runQueryAttempts { r with retryCount := r.retryCount + 1 } stats1 rest
        (next.1, next.2.1, next.2.2 + 1)
      else
        (.rejected e,
         { stats1 with failedRequests := stats1.failedRequests + 1 }, 0)

/-- The dispatcher's shared state: the FIFO `requestQueue`, the multiset of
launched-but-unsettled attempts, and the `activeGroqRequests` counter. -/
structure DispatcherState where
  queue : List QueuedRequest
  inFlight : List QueuedRequest
  activeGroqRequests : Nat
deriving DecidableEq

/-- One atomic state change of the dispatcher. `launch` is one iteration of
the `processQueue` pump loop (guarded by `activeGroqRequests <
MAX_CONCURRENT_GROQ_REQUESTS`); the three `settle` steps are the
`.then`/`.catch` + `.finally` handlers of one attempt, each decrementing
`activeGroqRequests` exactly once. A retried request is pushed at the tail
of the queue with `retryCount` incremented. -/
inductive DispatchStep : DispatcherState → DispatcherState → Prop
  | enqueue (s : DispatcherState) (r : QueuedRequest) :
      DispatchStep s { s with queue := s.queue ++ [r] }
  | launch (s : DispatcherState) (r : QueuedRequest) (rest : List QueuedRequest) :
      s.queue = r :: rest →
      s.activeGroqRequests < MAX_CONCURRENT_GROQ_REQUESTS →
      DispatchStep s
        { queue := rest, inFlight := s.inFlight ++ [r],
          activeGroqRequests := s.activeGroqRequests + 1 }
  | settleResolve (s : DispatcherState) (r : QueuedRequest) :
      r ∈ s.inFlight →
      DispatchStep s
        { s with inFlight := s.inFlight.erase r,
                 activeGroqRequests := s.activeGroqRequests - 1 }
  | settleRetry (s : DispatcherState) (r : QueuedRequest) :
      r ∈ s.inFlight → r.retryCount < 3 →
      DispatchStep s
        { queue := s.queue ++ [{ r with retryCount := r.retryCount + 1 }],
          inFlight := s.inFlight.erase r,
          activeGroqRequests := s.activeGroqRequests - 1 }
  | settleReject (s : DispatcherState) (r : QueuedRequest) :
      r ∈ s.inFlight → ¬ r.retryCount < 3 →
      DispatchStep s
        { s with inFlight := s.inFlight.erase r,
                 activeGroqRequests := s.activeGroqRequests - 1 }

def initialDispatcherState : DispatcherState :=
  { queue := [], inFlight := [], activeGroqRequests := 0 }

/-- States the dispatcher can reach from startup. -/
def DispatcherReachable : DispatcherState → Prop :=
  Relation.ReflTransGen DispatchStep initialDispatcherState

/-! ## Startup queue reload (part_004, first module) -/

/-- What `saveQueue` writes per request: the queue snapshot entry. -/
structure PersistedRequest where
  id : String
  userQuery : String
  userId : Option String := none
  channelId : Option String := none
  messageId : Option String := none
  timestamp : Nat
  retryCount : Nat
deriving DecidableEq

/-- The enqueue effect of `askLLM`: pushes a new request at the tail with a
fresh id, the current time, and `retryCount` 0. -/
def askLLMEnqueue (queue : List QueuedRequest) (freshId : String) (now : Nat)
    (userQuery : String) (userId channelId messageId : Option String) :
    List QueuedRequest :=
  queue ++ [{ id := freshId, userQuery := userQuery, userId := userId,
              channelId := channelId, messageId := messageId,
              timestamp := now, retryCount := 0 }]

/-- `loadPersistedQueue`: each persisted request is re-submitted through
`askLLM(req.userQuery, req.userId, req.channelId, req.messageId)`; the
fresh ids produced by `askLLM` are modelled by the generator `idGen`
(position-indexed). The persisted `id` and `retryCount` are never read. -/
def loadPersistedQueue (idGen : Nat → String) (now : Nat)
    (queue : List QueuedRequest) : List PersistedRequest → List QueuedRequest
  | [] => queue
  | p :: ps =>
    loadPersistedQueue (fun i => idGen (i + 1)) now
      (askLLMEnqueue queue (idGen 0) now p.userQuery p.userId p.channelId p.messageId) ps

/-! ## Context selector (src/src/utils/context-selector.ts) -/

/-- Which subsets of the static `hackathon-data.json` document are merged
into `relevantInfo`. The document itself is a passive constant, so the
bundle contents are determined by these inclusion flags. -/
structure RelevantInfo where
  basicMinimal : Bool := false
  basicFull : Bool := false
  schedule : Bool := false
  registration : Bool := false
  team : Bool := false
  prizes : Bool := false
  facilities : Bool := false
  statistics : Bool := false
  faqs : Bool := false
  perks : Bool := false
  about : Bool := false
  theme : Bool := false
  communities : Bool := false
  overview : Bool := false
deriving DecidableEq

structure ContextData where
  relevantInfo : RelevantInfo
  detectedTopics : List String
  isGeneralKnowledge : Bool
deriving DecidableEq

def gkIndicators : List String :=
  ["what is", "who is", "who was", "explain", "define", "how does",
   "why does", "tell me about", "what are the benefits of",
   "difference between", "compare", "how to learn", "what does",
   "history of", "meaning of", "tutorial", "example of"]

def hackathonIndicators : List String :=
  ["hackoverflow", "phcet", "pillai", "register", "prize", "schedule", "event",
   "hackathon", "organizer", "when is", "where is", "how to join",
   "deadline", "team size", "eligibility", "accommodation", "food",
   "coordinator", "lead", "head", "mentor", "faculty", "rasayani",
   "venue", "location", "campus"]

/-- The early-return bundle for general-knowledge queries:
`{ basic: { name, contact } }` plus the `general_knowledge` topic. -/
def generalKnowledgeBundle : ContextData :=
  { relevantInfo := { basicMinimal := true },
    detectedTopics := ["general_knowledge"],
    isGeneralKnowledge := true }

/-- The keyword-group scan of `selectRelevantContext` after the
general-knowledge early return: accumulates the merged document subsets
and the pushed topic names over the lowercased query. -/
def selectDomainInfoTopics (query : String) (mentionsTeamMember : Bool) :
    RelevantInfo × List String :=
  let info : RelevantInfo := { basicFull := true }
  let topics : List String := []
  let scheduleHit := strIncludes query "schedule" || strIncludes query "timing" ||
    strIncludes query "time" || strIncludes query "day 1" || strIncludes query "day 2" ||
    strIncludes query "day 3" || strIncludes query "when" || strIncludes query "agenda" ||
    strIncludes query "itinerary"
  let info := if scheduleHit then { info with schedule := true } else info
  let topics := if scheduleHit then topics ++ ["schedule"] else topics
  let registrationHit := strIncludes query "register" || strIncludes query "registration" ||
    strIncludes query "sign up" || strIncludes query "how to join" ||
    strIncludes query "fee" || strIncludes query "cost" || strIncludes query "eligibility" ||
    strIncludes query "apply" || strIncludes query "deadline"
  let info := if registrationHit then { info with registration := true } else info
  let topics := if registrationHit then topics ++ ["registration"] else topics
  let teamHit := strIncludes query "team" || strIncludes query "organizer" ||
    strIncludes query "coordinator" || strIncludes query "lead" ||
    strIncludes query "faculty" || strIncludes query "head" ||
    strIncludes query "mentor" || strIncludes query "who is" ||
    strIncludes query "who are" || strIncludes query "member" ||
    strIncludes query "contact person" || strIncludes query "role of" ||
    strIncludes query "position of" || strIncludes query "phone" ||
    strIncludes query "number" || strIncludes query "call" ||
    strIncludes query "reach" || mentionsTeamMember
  let info := if teamHit then { info with team := true } else info
  let topics := if teamHit then topics ++ ["team"] else topics
  let prizeHit := strIncludes query "prize" || strIncludes query "win" ||
    strIncludes query "reward" || strIncludes query "money" || strIncludes query "cash" ||
    strIncludes query "award" || strIncludes query "incentive"
  let info := if prizeHit then { info with prizes := true } else info
  let topics := if prizeHit then topics ++ ["prizes"] else topics
  let facilitiesHit := strIncludes query "food" || strIncludes query "meal" ||
    strIncludes query "accommodation" || strIncludes query "stay" ||
    strIncludes query "transport" || strIncludes query "bus" ||
    strIncludes query "facility" || strIncludes query "amenities" ||
    strIncludes query "breakfast" || strIncludes query "lunch" ||
    strIncludes query "dinner" || strIncludes query "lodging"
  let info := if facilitiesHit then { info with facilities := true } else info
  let topics := if facilitiesHit then topics ++ ["facilities"] else topics
  let statsHit := strIncludes query "statistic" || strIncludes query "stats" ||
    strIncludes query "how many" || strIncludes query "participant" ||
    strIncludes query "previous" || strIncludes query "last year" ||
    strIncludes query "hackoverflow 3" || strIncludes query "past edition"
  let info := if statsHit then { info with statistics := true } else info
  let topics := if statsHit then topics ++ ["statistics"] else topics
  let faqHit := strIncludes query "faq" || strIncludes query "question" ||
    strIncludes query "beginner" || strIncludes query "can i" ||
    strIncludes query "am i eligible" || strIncludes query "requirements"
  let info := if faqHit then { info with faqs := true } else info
  let topics := if faqHit then topics ++ ["faqs"] else topics
  let perksHit := strIncludes query "perk" || strIncludes query "benefit" ||
    strIncludes query "goodies" || strIncludes query "swag" ||
    strIncludes query "certificate" || strIncludes query "gift" ||
    strIncludes query "what do i get"
  let info := if perksHit then { info with perks := true } else info
  let topics := if perksHit then topics ++ ["perks"] else topics
  let aboutHit := strIncludes query "about" || strIncludes query "why" ||
    strIncludes query "what is" || strIncludes query "phcet" ||
    strIncludes query "pillai" || strIncludes query "college" ||
    strIncludes query "rasayani" || strIncludes query "background" ||
    strIncludes query "history"
  let info := if aboutHit then { info with about := true } else info
  let topics := if aboutHit then topics ++ ["about"] else topics
  let themeHit := strIncludes query "theme" || strIncludes query "topic" ||
    strIncludes query "domain" || strIncludes query "category" ||
    strIncludes query "project type" || strIncludes query "problem statement"
  let info := if themeHit then { info with theme := true } else info
  let topics := if themeHit then topics ++ ["theme"] else topics
  let communitiesHit := strIncludes query "club" || strIncludes query "community" ||
    strIncludes query "gdg" || strIncludes query "csi" ||
    strIncludes query "cybersecurity" || strIncludes query "geeksforgeeks" ||
    strIncludes query "developer group"
  let info := if communitiesHit then { info with communities := true } else info
  let topics := if communitiesHit then topics ++ ["communities"] else topics
  if topics.length = 0 then
    ({ info with overview := true }, ["general"])
  else
    (info, topics)

/-- The domain-specific result of `selectRelevantContext`: the scanned
bundle with `isGeneralKnowledge: false`. -/
def selectDomainContext (query : String) (mentionsTeamMember : Bool) : ContextData :=
  { relevantInfo := (selectDomainInfoTopics query mentionsTeamMember).1,
    detectedTopics := (selectDomainInfoTopics query mentionsTeamMember).2,
    isGeneralKnowledge := false }

/-- `selectRelevantContext` on the already-lowercased query. `allTeamNames`
is the lowercase entity-name list `ALL_TEAM_NAMES` that
`extractAllNamesFromData` builds at module load from
`hackathon-data.json`; the document is config, not part of `src/`, so the
list is a parameter here. -/
def selectOnLowered (allTeamNames : List String) (query : String) : ContextData :=
  let mentionsTeamMember := allTeamNames.any (fun name => strIncludes query name)
  let hasGkIndicator := gkIndicators.any (fun ind => strIncludes query ind)
  let hasHackathonIndicator := hackathonIndicators.any (fun ind => strIncludes query ind)
  if hasGkIndicator && !hasHackathonIndicator && !mentionsTeamMember then
    generalKnowledgeBundle
  else
    selectDomainContext query mentionsTeamMember

/-- `selectRelevantContext(userQuery)`: lowercase, then classify. -/
def selectRelevantContext (allTeamNames : List String) (userQuery : String) : ContextData :=
  selectOnLowered allTeamNames (toLowerCase userQuery)

/-! ## Concrete sample data for witnesses -/

/-- A generic thrown error with no recognised status: re-thrown by
`processGroqRequest`, hence retryable in `processQueue`. -/
def sampleThrownError : GroqApiError := { status := none, errorTypeTokens := false }

def sampleRequest : QueuedRequest :=
  { id := "1700000000000-abc", userQuery := "what is the prize pool",
    timestamp := 0, retryCount := 0 }

def sampleSnapshot : List PersistedRequest :=
  [{ id := "1690000000000-old", userQuery := "what is the prize pool",
     timestamp := 5, retryCount := 2 }]

def sampleAppends : List AppendOp :=
  (List.range 12).map (fun i =>
    { userId := "u1", channelId := "c1", role := ChatRole.user,
      content := "hello", time := i })

end HackoverflowBot

namespace HackoverflowBot

/-! ## Helper lemmas -/

theorem mem_le_listMax {l : List Nat} {t : Nat} (h : t ∈ l) : t ≤ listMax l := by
  induction l with
  | nil => cases h
  | cons a as ih =>
    rw [listMax]
    rcases List.mem_cons.mp h with rfl | h2
    · exact le_max_left _ _
    · exact le_trans (ih h2) (le_max_right _ _)

theorem listMin_mem : ∀ {l : List Nat}, l ≠ [] → listMin l ∈ l
  | [], h => absurd rfl h
  | [a], _ => by simp [listMin]
  | a :: b :: t, _ => by
    have hmin : listMin (a :: b :: t) = min a (listMin (b :: t)) := rfl
    rw [hmin]
    rcases Nat.le_total a (listMin (b :: t)) with h | h
    · rw [min_eq_left h]; exact List.mem_cons_self _ _
    · rw [min_eq_right h]
      exact List.mem_cons_of_mem _ (listMin_mem (List.cons_ne_nil b t))

theorem runQueryAttempts_requeues_le :
    ∀ (us : List (Except GroqApiError String)) (r : QueuedRequest) (stats : DispatchStats),
      (runQueryAttempts r stats us).2.2 ≤ 3 - r.retryCount := by
  intro us
  induction us with
  | nil => intro r stats; simp [runQueryAttempts]
  | cons u rest ih =>
    intro r stats
    rw [runQueryAttempts]
    cases hp : processGroqRequest u with
    | ok response => simp
    | error e =>
      simp only
      by_cases hlt : r.retryCount < 3
      · rw [if_pos hlt]
        have := ih { r with retryCount := r.retryCount + 1 }
          { stats with totalRequests := stats.totalRequests + 1 }
        simp only at this ⊢
        omega
      · rw [if_neg hlt]
        simp

theorem runQueryAttempts_four_failures (e : GroqApiError)
    (he : handleGroqApiError e = none) (r : QueuedRequest) (hr : r.retryCount = 0)
    (stats : DispatchStats) (us : List (Except GroqApiError String)) :
    runQueryAttempts r stats (.error e :: .error e :: .error e :: .error e :: us) =
      (.rejected e,
       { stats with totalRequests := stats.totalRequests + 4,
                    failedRequests := stats.failedRequests + 1 }, 3) := by
  have hpe : processGroqRequest (.error e) = .error e := by
    simp [processGroqRequest, he]
  simp [runQueryAttempts, hpe, hr]

/-! ## Claim theorems -/

/-- C1: every dispatcher state reachable from startup keeps the in-flight
counter `activeGroqRequests` at or below `MAX_CONCURRENT_GROQ_REQUESTS`
(the pump launches only while strictly below the cap), and the counter
always equals the number of unsettled attempts (each settle decrements it
exactly once). -/
theorem dispatcher_inflight_bounded (s : DispatcherState) (h : DispatcherReachable s) :
    s.activeGroqRequests ≤ MAX_CONCURRENT_GROQ_REQUESTS ∧
    s.activeGroqRequests = s.inFlight.length := by
  induction h with
  | refl => exact ⟨by simp [initialDispatcherState, MAX_CONCURRENT_GROQ_REQUESTS], rfl⟩
  | tail _ step ih =>
    obtain ⟨hle, hlen⟩ := ih
    cases step with
    | enqueue r => exact ⟨hle, hlen⟩
    | launch r rest hq hlt =>
      refine ⟨hlt, ?_⟩
      simp [hlen]
    | settleResolve r hmem =>
      have h1 := List.length_erase_of_mem hmem
      have h2 := List.length_pos_of_mem hmem
      constructor
      · dsimp only; omega
      · dsimp only; rw [h1]; omega
    | settleRetry r hmem hlt =>
      have h1 := List.length_erase_of_mem hmem
      have h2 := List.length_pos_of_mem hmem
      constructor
      · dsimp only; omega
      · dsimp only; rw [h1]; omega
    | settleReject r hmem hge =>
      have h1 := List.length_erase_of_mem hmem
      have h2 := List.length_pos_of_mem hmem
      constructor
      · dsimp only; omega
      · dsimp only; rw [h1]; omega

theorem dispatcher_inflight_bounded_witness :
    initialDispatcherState.activeGroqRequests ≤ MAX_CONCURRENT_GROQ_REQUESTS ∧
    initialDispatcherState.activeGroqRequests = initialDispatcherState.inFlight.length :=
  dispatcher_inflight_bounded initialDispatcherState Relation.ReflTransGen.refl

/-- C2: a query whose every attempt throws a retryable (unrecognised)
error is requeued exactly 3 times, with `retryCount` incremented on each
requeue, and is then rejected at the fourth attempt; the requeue count
never exceeds 3 for any attempt sequence, and a requeue is a tail push in
the dispatcher step relation. -/
theorem retry_budget_exhausted (e : GroqApiError) (he : handleGroqApiError e = none)
    (r : QueuedRequest) (hr : r.retryCount = 0) (stats : DispatchStats)
    (us : List (Except GroqApiError String)) :
    ((runQueryAttempts r stats (.error e :: .error e :: .error e :: .error e :: us)).1 =
        .rejected e
      ∧ (runQueryAttempts r stats (.error e :: .error e :: .error e :: .error e :: us)).2.2 = 3)
    ∧ runQueryAttempts r stats [.error e] =
        (.pending { r with retryCount := 1 },
         { stats with totalRequests := stats.totalRequests + 1 }, 1)
    ∧ (∀ vs : List (Except GroqApiError String), (runQueryAttempts r stats vs).2.2 ≤ 3)
    ∧ (∀ (s : DispatcherState) (q : QueuedRequest), q ∈ s.inFlight → q.retryCount < 3 →
        DispatchStep s
          { queue := s.queue ++ [{ q with retryCount := q.retryCount + 1 }],
            inFlight := s.inFlight.erase q,
            activeGroqRequests := s.activeGroqRequests - 1 }) := by
  have hpe : processGroqRequest (.error e) = .error e := by
    simp [processGroqRequest, he]
  refine ⟨⟨?_, ?_⟩, ?_, ?_, ?_⟩
  · rw [runQueryAttempts_four_failures e he r hr stats us]
  · rw [runQueryAttempts_four_failures e he r hr stats us]
  · simp [runQueryAttempts, hpe, hr]
  · intro vs
    have := runQueryAttempts_requeues_le vs r stats
    omega
  · intro s q h1 h2
    exact DispatchStep.settleRetry s q h1 h2

theorem retry_budget_exhausted_witness :
    handleGroqApiError sampleThrownError = none ∧
    (runQueryAttempts sampleRequest {}
        [.error sampleThrownError, .error sampleThrownError,
         .error sampleThrownError, .error sampleThrownError]).1 =
      .rejected sampleThrownError :=
  ⟨by decide,
   ((retry_budget_exhausted sampleThrownError (by decide) sampleRequest (by decide)
      {} []).1).1⟩

/-- C8: an empty upstream response is a terminal success: the attempt
resolves with the fixed message, `successfulRequests` is incremented,
`failedRequests` is untouched, and no requeue (no retry) is consumed. -/
theorem empty_response_terminal_success (r : QueuedRequest) (stats : DispatchStats) :
    processGroqRequest (.ok "") = .ok EMPTY_RESPONSE_MESSAGE
    ∧ runQueryAttempts r stats [.ok ""] =
        (.resolved EMPTY_RESPONSE_MESSAGE,
         { stats with totalRequests := stats.totalRequests + 1,
                      successfulRequests := stats.successfulRequests + 1 }, 0) := by
  constructor
  · rfl
  · simp [runQueryAttempts, processGroqRequest]

/-- C9: when every attempt of a query throws, `failedRequests` is
incremented exactly once, at the final rejection, not once per attempt
(while `totalRequests` counts all four attempts). -/
theorem failed_counter_increments_once (e : GroqApiError)
    (he : handleGroqApiError e = none) (r : QueuedRequest) (hr : r.retryCount = 0)
    (stats : DispatchStats) (us : List (Except GroqApiError String)) :
    (runQueryAttempts r stats
        (.error e :: .error e :: .error e :: .error e :: us)).2.1.failedRequests =
      stats.failedRequests + 1
    ∧ (runQueryAttempts r stats
        (.error e :: .error e :: .error e :: .error e :: us)).2.1.totalRequests =
      stats.totalRequests + 4 := by
  rw [runQueryAttempts_four_failures e he r hr stats us]
  exact ⟨rfl, rfl⟩

theorem failed_counter_increments_once_witness :
    (runQueryAttempts sampleRequest {}
        [.error sampleThrownError, .error sampleThrownError,
         .error sampleThrownError, .error sampleThrownError]).2.1.failedRequests = 0 + 1 :=
  (failed_counter_increments_once sampleThrownError (by decide) sampleRequest
    (by decide) {} []).1

theorem loadPersistedQueue_append (now : Nat) :
    ∀ (ps : List PersistedRequest) (idGen : Nat → String) (queue : List QueuedRequest),
      loadPersistedQueue idGen now queue ps = queue ++ loadPersistedQueue idGen now [] ps := by
  intro ps
  induction ps with
  | nil => intro idGen queue; simp [loadPersistedQueue]
  | cons p rest ih =>
    intro idGen queue
    rw [loadPersistedQueue, loadPersistedQueue, ih, ih (fun i => idGen (i + 1))
      (askLLMEnqueue [] (idGen 0) now p.userQuery p.userId p.channelId p.messageId)]
    simp [askLLMEnqueue]

/-- C10: reloading a persisted queue re-submits every snapshot entry
through `askLLM`, which enqueues it with `retryCount` 0 (regardless of the
persisted value), the original query text, and a fresh id drawn from the
id generator rather than the snapshot. -/
theorem loadPersistedQueue_resets_retry :
    ∀ (ps : List PersistedRequest) (idGen : Nat → String) (now : Nat),
      (loadPersistedQueue idGen now [] ps).length = ps.length
      ∧ (∀ q ∈ loadPersistedQueue idGen now [] ps, q.retryCount = 0)
      ∧ (loadPersistedQueue idGen now [] ps).map (·.userQuery) = ps.map (·.userQuery)
      ∧ (loadPersistedQueue idGen now [] ps).map (·.id) =
          (List.range ps.length).map idGen := by
  intro ps
  induction ps with
  | nil => intro idGen now; simp [loadPersistedQueue]
  | cons p rest ih =>
    intro idGen now
    rw [loadPersistedQueue, loadPersistedQueue_append]
    obtain ⟨ih1, ih2, ih3, ih4⟩ := ih (fun i => idGen (i + 1)) now
    refine ⟨?_, ?_, ?_, ?_⟩
    · simp [askLLMEnqueue, ih1]
    · intro q hq
      rcases List.mem_append.mp hq with h | h
      · simp [askLLMEnqueue] at h
        rw [h]
      · exact ih2 q h
    · simp [askLLMEnqueue, ih3]
    · simp only [askLLMEnqueue, List.nil_append, List.map_cons, List.map_append,
        List.length_cons, List.range_succ_eq_map, List.map_map]
      rw [ih4]
      simp [Function.comp_def, List.map_map]

theorem checkRateLimitWindow_allowed_gap (now : Nat) (u : UserRateLimit) (t : Nat)
    (ht : t ∈ u.timestamps)
    (h : (checkRateLimitWindow now u).1.allowed = true) :
    t + COOLDOWN_BETWEEN_REQUESTS_MS ≤ now := by
  have e1 : RATE_LIMIT_WINDOW_MS = 60000 := rfl
  have e2 : COOLDOWN_BETWEEN_REQUESTS_MS = 3000 := rfl
  simp only [checkRateLimitWindow] at h
  split at h
  next h10 => simp at h
  next h10 =>
    split at h
    next hcd => simp at h
    next hcd =>
      by_cases hw : now - t < RATE_LIMIT_WINDOW_MS
      · have hmem : t ∈ u.timestamps.filter (fun ts => now - ts < RATE_LIMIT_WINDOW_MS) :=
          List.mem_filter.mpr ⟨ht, by simp [hw]⟩
        have h1 : 0 < (u.timestamps.filter (fun ts => now - ts < RATE_LIMIT_WINDOW_MS)).length :=
          List.length_pos_of_mem hmem
        have h2 : t ≤ listMax (u.timestamps.filter (fun ts => now - ts < RATE_LIMIT_WINDOW_MS)) :=
          mem_le_listMax hmem
        have h3 : ¬ now - listMax (u.timestamps.filter (fun ts => now - ts < RATE_LIMIT_WINDOW_MS))
            < COOLDOWN_BETWEEN_REQUESTS_MS := fun hlt => hcd ⟨h1, hlt⟩
        omega
      · omega

theorem checkRateLimit_allowed_gap (now : Nat) (u : UserRateLimit) (t : Nat)
    (ht : t ∈ u.timestamps)
    (h : (checkRateLimit now u).1.allowed = true) :
    t + COOLDOWN_BETWEEN_REQUESTS_MS ≤ now := by
  obtain ⟨tsl, bu⟩ := u
  cases bu with
  | none =>
    simp only [checkRateLimit] at h
    exact checkRateLimitWindow_allowed_gap now _ t ht h
  | some b =>
    simp only [checkRateLimit] at h
    by_cases hv : now < b
    · rw [if_pos hv] at h; simp at h
    · rw [if_neg hv] at h
      exact checkRateLimitWindow_allowed_gap now _ t ht h

theorem checkRateLimitWindow_mem_timestamps (now : Nat) (u : UserRateLimit) (t : Nat)
    (hf : t ∈ u.timestamps.filter (fun ts => now - ts < RATE_LIMIT_WINDOW_MS)) :
    t ∈ (checkRateLimitWindow now u).2.timestamps := by
  simp only [checkRateLimitWindow]
  split
  · simpa using hf
  · split
    · simpa using hf
    · simp only
      exact List.mem_append_left _ hf

theorem checkRateLimit_timestamps_evolve (now : Nat) (u : UserRateLimit) (t : Nat)
    (ht : t ∈ u.timestamps) :
    t ∈ (checkRateLimit now u).2.timestamps ∨ t + RATE_LIMIT_WINDOW_MS ≤ now := by
  have e1 : RATE_LIMIT_WINDOW_MS = 60000 := rfl
  by_cases hw : now - t < RATE_LIMIT_WINDOW_MS
  · left
    have hf : t ∈ u.timestamps.filter (fun ts => now - ts < RATE_LIMIT_WINDOW_MS) :=
      List.mem_filter.mpr ⟨ht, by simp [hw]⟩
    obtain ⟨tsl, bu⟩ := u
    cases bu with
    | none =>
      simp only [checkRateLimit]
      exact checkRateLimitWindow_mem_timestamps now _ t hf
    | some b =>
      simp only [checkRateLimit]
      by_cases hv : now < b
      · rw [if_pos hv]; simpa using ht
      · rw [if_neg hv]
        exact checkRateLimitWindow_mem_timestamps now _ t hf
  · right; omega

theorem checkRateLimitWindow_allowed_records (now : Nat) (u : UserRateLimit)
    (h : (checkRateLimitWindow now u).1.allowed = true) :
    now ∈ (checkRateLimitWindow now u).2.timestamps := by
  simp only [checkRateLimitWindow] at h ⊢
  by_cases h10 : MAX_REQUESTS_PER_WINDOW ≤
      (u.timestamps.filter (fun ts => now - ts < RATE_LIMIT_WINDOW_MS)).length
  · rw [if_pos h10] at h; simp at h
  · rw [if_neg h10] at h ⊢
    by_cases hcd : 0 < (u.timestamps.filter (fun ts => now - ts < RATE_LIMIT_WINDOW_MS)).length ∧
        now - listMax (u.timestamps.filter (fun ts => now - ts < RATE_LIMIT_WINDOW_MS)) <
          COOLDOWN_BETWEEN_REQUESTS_MS
    · rw [if_pos hcd] at h; simp at h
    · rw [if_neg hcd] at h ⊢
      simp

theorem checkRateLimit_allowed_records (now : Nat) (u : UserRateLimit)
    (h : (checkRateLimit now u).1.allowed = true) :
    now ∈ (checkRateLimit now u).2.timestamps := by
  obtain ⟨tsl, bu⟩ := u
  cases bu with
  | none =>
    simp only [checkRateLimit] at h ⊢
    exact checkRateLimitWindow_allowed_records now _ h
  | some b =>
    simp only [checkRateLimit] at h ⊢
    by_cases hv : now < b
    · rw [if_pos hv] at h; simp at h
    · rw [if_neg hv] at h ⊢
      exact checkRateLimitWindow_allowed_records now _ h

theorem checkRateLimit_fresh (c : Nat) :
    checkRateLimit c { timestamps := [], blockedUntil := none } =
      ({ allowed := true, waitTime := none },
       { timestamps := [c], blockedUntil := none }) := rfl

/-- The admitted times of a monotone call sequence, with a lower bound on
the head: auxiliary induction for the cooldown-gap chain. -/
theorem runRateLimiter_chain_aux :
    ∀ (calls : List Nat) (u : UserRateLimit) (a m : Nat),
      List.Chain' (· ≤ ·) (m :: calls) →
      (a ∈ u.timestamps ∨ a + RATE_LIMIT_WINDOW_MS ≤ m) →
      List.Chain' (fun x y => x + COOLDOWN_BETWEEN_REQUESTS_MS ≤ y)
        (a :: runRateLimiter u calls) := by
  intro calls
  induction calls with
  | nil => intro u a m _ _; simp [runRateLimiter]
  | cons c rest ih =>
    intro u a m hmono ha
    have hmc : m ≤ c := (List.chain'_cons.mp hmono).1
    have hrest : List.Chain' (· ≤ ·) (c :: rest) := (List.chain'_cons.mp hmono).2
    have e1 : RATE_LIMIT_WINDOW_MS = 60000 := rfl
    have e2 : COOLDOWN_BETWEEN_REQUESTS_MS = 3000 := rfl
    rw [runRateLimiter]
    by_cases hall : (checkRateLimit c u).1.allowed = true
    · rw [if_pos hall, List.chain'_cons]
      constructor
      · rcases ha with hmem | hfar
        · exact checkRateLimit_allowed_gap c u a hmem hall
        · omega
      · exact ih (checkRateLimit c u).2 c c hrest
          (Or.inl (checkRateLimit_allowed_records c u hall))
    · rw [if_neg hall]
      apply ih (checkRateLimit c u).2 a c hrest
      rcases ha with hmem | hfar
      · rcases checkRateLimit_timestamps_evolve c u a hmem with h | h
        · exact Or.inl h
        · exact Or.inr h
      · exact Or.inr (le_trans hfar hmc)

/-- C3 counterexample: from a fresh record, calls at 0 ms, 3000 ms and
6000 ms are all admitted — in particular the third request arrives while
two admitted requests (0 and 3000) are inside the 60 s sliding window,
yet it is allowed, because the window cap is 10, not 2. -/
theorem third_request_in_window_admitted :
    runRateLimiter { timestamps := [], blockedUntil := none } [0, 3000, 6000] =
      [0, 3000, 6000]
    ∧ (checkRateLimit 6000
        (checkRateLimit 3000
          (checkRateLimit 0 { timestamps := [], blockedUntil := none }).2).2).1.allowed = true
    ∧ (checkRateLimit 3000
        (checkRateLimit 0 { timestamps := [], blockedUntil := none }).2).2.timestamps =
      [0, 3000]
    ∧ 6000 - 0 < RATE_LIMIT_WINDOW_MS := by
  refine ⟨by decide, by decide, by decide, by decide⟩

/-- C3 (amended): over any monotone sequence of calls for one user, two
consecutively admitted requests are separated by at least the cooldown
window; and a request arriving when `MAX_REQUESTS_PER_WINDOW` (10, not 2)
timestamps already lie inside the sliding window is denied with a positive
wait time. -/
theorem rateLimiter_cooldown_and_window :
    (∀ calls : List Nat, List.Chain' (· ≤ ·) calls →
       List.Chain' (fun a b => a + COOLDOWN_BETWEEN_REQUESTS_MS ≤ b)
         (runRateLimiter { timestamps := [], blockedUntil := none } calls))
    ∧ (∀ (now : Nat) (u : UserRateLimit),
         MAX_REQUESTS_PER_WINDOW ≤
           (u.timestamps.filter (fun ts => now - ts < RATE_LIMIT_WINDOW_MS)).length →
         (checkRateLimit now u).1.allowed = false ∧
           ∃ w, (checkRateLimit now u).1.waitTime = some w ∧ 1 ≤ w) := by
  constructor
  · intro calls hc
    cases calls with
    | nil => simp [runRateLimiter]
    | cons c rest =>
      rw [runRateLimiter, checkRateLimit_fresh]
      simp only [if_pos rfl]
      exact runRateLimiter_chain_aux rest _ c c hc (Or.inl (by simp))
  · intro now u h
    have e1 : RATE_LIMIT_WINDOW_MS = 60000 := rfl
    have e3 : ceilDiv1000 = fun a => (a + 999) / 1000 := rfl
    have hmm : MAX_REQUESTS_PER_WINDOW ≤
        (u.timestamps.filter (fun ts => now - ts < RATE_LIMIT_WINDOW_MS)).length := h
    have hwindow : (checkRateLimitWindow now u).1.allowed = false ∧
        ∃ w, (checkRateLimitWindow now u).1.waitTime = some w ∧ 1 ≤ w := by
      have hne : u.timestamps.filter (fun ts => now - ts < RATE_LIMIT_WINDOW_MS) ≠ [] := by
        intro hnil
        rw [hnil] at hmm
        simp [MAX_REQUESTS_PER_WINDOW] at hmm
      have holdest := listMin_mem hne
      have hinw : now - listMin (u.timestamps.filter (fun ts => now - ts < RATE_LIMIT_WINDOW_MS))
          < RATE_LIMIT_WINDOW_MS := by
        have := (List.mem_filter.mp holdest).2
        simpa using this
      simp only [checkRateLimitWindow, if_pos hmm]
      refine ⟨by simp, _, rfl, ?_⟩
      simp only [ceilDiv1000]
      omega
    obtain ⟨tsl, bu⟩ := u
    cases bu with
    | none =>
      simp only [checkRateLimit]
      exact hwindow
    | some b =>
      simp only [checkRateLimit]
      by_cases hv : now < b
      · rw [if_pos hv]
        refine ⟨rfl, _, rfl, ?_⟩
        simp only [ceilDiv1000]
        omega
      · rw [if_neg hv]
        exact hwindow

theorem rateLimiter_cooldown_and_window_witness :
    List.Chain' (· ≤ ·) [0, 3000, 6000]
    ∧ List.Chain' (fun a b => a + COOLDOWN_BETWEEN_REQUESTS_MS ≤ b)
        (runRateLimiter { timestamps := [], blockedUntil := none } [0, 3000, 6000])
    ∧ ((checkRateLimit 500
          { timestamps := List.replicate 10 0, blockedUntil := none }).1.allowed = false ∧
        ∃ w, (checkRateLimit 500
          { timestamps := List.replicate 10 0, blockedUntil := none }).1.waitTime = some w ∧
          1 ≤ w) :=
  ⟨by simp,
   rateLimiter_cooldown_and_window.1 [0, 3000, 6000] (by simp),
   rateLimiter_cooldown_and_window.2 500
     { timestamps := List.replicate 10 0, blockedUntil := none } (by decide)⟩

/-- C4 counterexample: with ten timestamps at 0 ms and a check at 500 ms,
the recorded deadline is `blockedUntil = 60500`, not the window expiry of
the oldest timestamp (`0 + 60000`): the code stores `now + ceil(wait
seconds) * 1000`, which rounds the deadline up to a whole second past
`now`. -/
theorem blocked_deadline_not_window_expiry :
    (checkRateLimit 500
        { timestamps := List.replicate 10 0, blockedUntil := none }).2.blockedUntil =
      some 60500
    ∧ listMin ((List.replicate 10 0).filter (fun ts => (500 : Nat) - ts < RATE_LIMIT_WINDOW_MS))
        + RATE_LIMIT_WINDOW_MS = 60000
    ∧ (60500 : Nat) ≠ 60000 := by
  refine ⟨by decide, by decide, by decide⟩

/-- C4 (amended): when the in-window timestamp count reaches
`MAX_REQUESTS_PER_WINDOW`, the limiter denies the request and records a
`blockedUntil` deadline equal to the window expiry of the oldest in-window
timestamp rounded up to a whole-second offset from `now` (so within
1000 ms at or above the expiry); while the deadline has not passed, every
call is denied with the wait time `ceil((blockedUntil - now)/1000)`
derived from that fixed deadline, positive, and with the record left
unchanged. -/
theorem rateLimiter_block_deadline :
    (∀ (now : Nat) (u : UserRateLimit),
       (∀ b, u.blockedUntil = some b → b ≤ now) →
       (∀ t ∈ u.timestamps, t ≤ now) →
       MAX_REQUESTS_PER_WINDOW ≤
         (u.timestamps.filter (fun ts => now - ts < RATE_LIMIT_WINDOW_MS)).length →
       (checkRateLimit now u).1.allowed = false ∧
         ∃ B, (checkRateLimit now u).2.blockedUntil = some B ∧
           listMin (u.timestamps.filter (fun ts => now - ts < RATE_LIMIT_WINDOW_MS))
             + RATE_LIMIT_WINDOW_MS ≤ B ∧
           B < listMin (u.timestamps.filter (fun ts => now - ts < RATE_LIMIT_WINDOW_MS))
             + RATE_LIMIT_WINDOW_MS + 1000)
    ∧ (∀ (now : Nat) (u : UserRateLimit) (b : Nat),
         u.blockedUntil = some b → now < b →
         checkRateLimit now u =
           ({ allowed := false, waitTime := some (ceilDiv1000 (b - now)) }, u) ∧
           1 ≤ ceilDiv1000 (b - now)) := by
  constructor
  · intro now u hb hmono h
    have e1 : RATE_LIMIT_WINDOW_MS = 60000 := rfl
    have hne : u.timestamps.filter (fun ts => now - ts < RATE_LIMIT_WINDOW_MS) ≠ [] := by
      intro hnil
      rw [hnil] at h
      simp [MAX_REQUESTS_PER_WINDOW] at h
    have holdest := listMin_mem hne
    have hinw : now - listMin (u.timestamps.filter (fun ts => now - ts < RATE_LIMIT_WINDOW_MS))
        < RATE_LIMIT_WINDOW_MS := by
      have := (List.mem_filter.mp holdest).2
      simpa using this
    have hle : listMin (u.timestamps.filter (fun ts => now - ts < RATE_LIMIT_WINDOW_MS)) ≤ now :=
      hmono _ (List.mem_of_mem_filter holdest)
    have hwindow : (checkRateLimitWindow now u).1.allowed = false ∧
        ∃ B, (checkRateLimitWindow now u).2.blockedUntil = some B ∧
          listMin (u.timestamps.filter (fun ts => now - ts < RATE_LIMIT_WINDOW_MS))
            + RATE_LIMIT_WINDOW_MS ≤ B ∧
          B < listMin (u.timestamps.filter (fun ts => now - ts < RATE_LIMIT_WINDOW_MS))
            + RATE_LIMIT_WINDOW_MS + 1000 := by
      simp only [checkRateLimitWindow, if_pos h]
      refine ⟨by simp, _, rfl, ?_, ?_⟩
      · simp only [ceilDiv1000]
        omega
      · simp only [ceilDiv1000]
        omega
    obtain ⟨tsl, bu⟩ := u
    cases bu with
    | none =>
      simp only [checkRateLimit]
      exact hwindow
    | some b =>
      have hble : b ≤ now := hb b rfl
      simp only [checkRateLimit]
      rw [if_neg (by omega)]
      exact hwindow
  · intro now u b hb hv
    obtain ⟨tsl, bu⟩ := u
    cases hb
    refine ⟨by simp [checkRateLimit, if_pos hv], ?_⟩
    simp only [ceilDiv1000]
    omega

theorem rateLimiter_block_deadline_witness :
    ((checkRateLimit 500
        { timestamps := List.replicate 10 0, blockedUntil := none }).1.allowed = false ∧
      ∃ B, (checkRateLimit 500
            { timestamps := List.replicate 10 0, blockedUntil := none }).2.blockedUntil = some B ∧
        listMin ((List.replicate 10 0).filter
            (fun ts => (500 : Nat) - ts < RATE_LIMIT_WINDOW_MS)) + RATE_LIMIT_WINDOW_MS ≤ B ∧
        B < listMin ((List.replicate 10 0).filter
            (fun ts => (500 : Nat) - ts < RATE_LIMIT_WINDOW_MS)) + RATE_LIMIT_WINDOW_MS + 1000)
    ∧ (checkRateLimit 1000 { timestamps := List.replicate 10 0, blockedUntil := some 60500 } =
        ({ allowed := false, waitTime := some (ceilDiv1000 (60500 - 1000)) },
         { timestamps := List.replicate 10 0, blockedUntil := some 60500 }) ∧
       1 ≤ ceilDiv1000 (60500 - 1000)) :=
  ⟨rateLimiter_block_deadline.1 500
     { timestamps := List.replicate 10 0, blockedUntil := none }
     (by intro b hb; cases hb) (by decide) (by decide),
   rateLimiter_block_deadline.2 1000
     { timestamps := List.replicate 10 0, blockedUntil := some 60500 } 60500 rfl (by decide)⟩

theorem loadPersistedQueue_resets_retry_witness :
    (loadPersistedQueue (fun _ => "fresh-id") 7 [] sampleSnapshot).length =
      sampleSnapshot.length
    ∧ ({ id := "fresh-id", userQuery := "what is the prize pool",
         timestamp := 7, retryCount := 0 : QueuedRequest }).retryCount = 0 :=
  ⟨(loadPersistedQueue_resets_retry sampleSnapshot (fun _ => "fresh-id") 7).1,
   (loadPersistedQueue_resets_retry sampleSnapshot (fun _ => "fresh-id") 7).2.1
     _ (by decide)⟩

theorem selectDomainContext_not_general (query : String) (m : Bool) :
    (selectDomainContext query m).isGeneralKnowledge = false := rfl

/-- C5: the context selector is a pure function of the query text — the
same query always yields the same `ContextData` — and classification is
case-insensitive: queries with the same lowercasing yield identical topic
lists and bundle contents. (Purity is inherent to the embedding: the
source function reads only its argument and the static document, and
mutates no shared state.) -/
theorem contextSelector_pure_case_insensitive :
    (∀ (allTeamNames : List String) (q : String),
       selectRelevantContext allTeamNames q = selectRelevantContext allTeamNames q)
    ∧ (∀ (allTeamNames : List String) (q1 q2 : String),
         toLowerCase q1 = toLowerCase q2 →
         selectRelevantContext allTeamNames q1 = selectRelevantContext allTeamNames q2) := by
  refine ⟨fun _ _ => rfl, fun allTeamNames q1 q2 h => ?_⟩
  unfold selectRelevantContext
  rw [h]

theorem contextSelector_pure_case_insensitive_witness :
    toLowerCase "What IS the Prize Pool" = toLowerCase "what is the prize pool"
    ∧ selectRelevantContext ["nirav"] "What IS the Prize Pool" =
        selectRelevantContext ["nirav"] "what is the prize pool" :=
  ⟨by decide,
   contextSelector_pure_case_insensitive.2 ["nirav"]
     "What IS the Prize Pool" "what is the prize pool" (by decide)⟩

/-- C6: a query containing any known entity name is never classified as
general knowledge, even if it matches generic-knowledge phrasing such as
"who is": the entity check vetoes the general-knowledge early return. -/
theorem entity_name_forces_domain (allTeamNames : List String) (q name : String)
    (h1 : name ∈ allTeamNames) (h2 : strIncludes (toLowerCase q) name = true) :
    (selectRelevantContext allTeamNames q).isGeneralKnowledge = false := by
  unfold selectRelevantContext selectOnLowered
  have hm : allTeamNames.any (fun n => strIncludes (toLowerCase q) n) = true :=
    List.any_eq_true.mpr ⟨name, h1, h2⟩
  simp [hm, selectDomainContext_not_general]

theorem entity_name_forces_domain_witness :
    "nirav" ∈ ["nirav"]
    ∧ strIncludes (toLowerCase "Who is Nirav") "nirav" = true
    ∧ (selectRelevantContext ["nirav"] "Who is Nirav").isGeneralKnowledge = false :=
  ⟨by decide, by decide,
   entity_name_forces_domain ["nirav"] "Who is Nirav" "nirav" (by decide) (by decide)⟩

theorem mem_cacheSet {key : String} {v : ConversationContext} :
    ∀ {cache : ConversationCache} {p : String × ConversationContext},
      p ∈ cacheSet cache key v → p = (key, v) ∨ p ∈ cache := by
  intro cache
  induction cache with
  | nil =>
    intro p hp
    simp [cacheSet] at hp
    exact Or.inl hp
  | cons kv rest ih =>
    obtain ⟨k, w⟩ := kv
    intro p hp
    rw [cacheSet] at hp
    by_cases hk : k = key
    · rw [if_pos hk] at hp
      rcases List.mem_cons.mp hp with h | h
      · exact Or.inl h
      · exact Or.inr (List.mem_cons_of_mem _ h)
    · rw [if_neg hk] at hp
      rcases List.mem_cons.mp hp with h | h
      · exact Or.inr (h ▸ List.mem_cons_self _ _)
      · rcases ih h with h2 | h2
        · exact Or.inl h2
        · exact Or.inr (List.mem_cons_of_mem _ h2)

theorem cacheGet_mem {cache : ConversationCache} {key : String}
    {ctx : ConversationContext} (h : cacheGet cache key = some ctx) :
    ∃ p ∈ cache, p.2 = ctx := by
  unfold cacheGet at h
  cases hf : cache.find? (fun p => p.1 = key) with
  | none => rw [hf] at h; cases h
  | some p =>
    rw [hf] at h
    exact ⟨p, List.mem_of_find?_eq_some hf, by simpa using h⟩

theorem getConversationContext_length_le (now : Nat) (cache : ConversationCache)
    (userId channelId : String)
    (hinv : ∀ p ∈ cache, p.2.messages.length ≤ MAX_CONVERSATION_LENGTH) :
    (getConversationContext now cache userId channelId).messages.length ≤
      MAX_CONVERSATION_LENGTH := by
  unfold getConversationContext
  cases hg : cacheGet cache (getContextKey userId channelId) with
  | none => simp
  | some ctx =>
    obtain ⟨p, hmem, hp⟩ := cacheGet_mem hg
    exact hp ▸ hinv p hmem

theorem addToConversation_length_inv (now : Nat) (cache : ConversationCache)
    (userId channelId : String) (role : ChatRole) (content : String)
    (hinv : ∀ p ∈ cache, p.2.messages.length ≤ MAX_CONVERSATION_LENGTH) :
    ∀ p ∈ addToConversation now cache userId channelId role content,
      p.2.messages.length ≤ MAX_CONVERSATION_LENGTH := by
  intro p hp
  unfold addToConversation at hp
  rcases mem_cacheSet hp with rfl | hm
  · have hctx := getConversationContext_length_le now cache userId channelId hinv
    simp only [sliceLast]
    split
    · simp only [List.length_drop]
      omega
    · simp only [List.length_append, List.length_singleton] at *
      omega
  · exact hinv p hm

theorem applyAppends_length_inv :
    ∀ (ops : List AppendOp) (cache : ConversationCache),
      (∀ p ∈ cache, p.2.messages.length ≤ MAX_CONVERSATION_LENGTH) →
      ∀ p ∈ applyAppends cache ops, p.2.messages.length ≤ MAX_CONVERSATION_LENGTH := by
  intro ops
  induction ops with
  | nil => intro cache hinv; exact hinv
  | cons op rest ih =>
    intro cache hinv
    exact ih _ (addToConversation_length_inv op.time cache op.userId op.channelId
      op.role op.content hinv)

theorem buildConversationHistory_length_le (cache : ConversationCache)
    (userId channelId : String) :
    (buildConversationHistory cache userId channelId).length ≤ 6 := by
  unfold buildConversationHistory
  cases cacheGet cache (getContextKey userId channelId) with
  | none => simp
  | some ctx =>
    dsimp only
    by_cases hz : ctx.messages.length = 0
    · rw [if_pos hz]; simp
    · rw [if_neg hz]
      simp only [List.length_map, sliceLast, List.length_drop]
      omega

/-- C7: the conversation cache never stores more than
`MAX_CONVERSATION_LENGTH` (10) entries per conversation — in particular
after appending 12 entries — and `buildConversationHistory` returns at
most the 6 most recent stored entries, as a suffix of the stored sequence
(original append order), and the empty list when no context exists for
the key. -/
theorem conversationCache_bounds (ops : List AppendOp) (userId channelId : String) :
    (∀ p ∈ applyAppends [] ops, p.2.messages.length ≤ MAX_CONVERSATION_LENGTH)
    ∧ (buildConversationHistory (applyAppends [] ops) userId channelId).length ≤ 6
    ∧ (∀ ctx, cacheGet (applyAppends [] ops) (getContextKey userId channelId) = some ctx →
        ∃ pre suf, ctx.messages = pre ++ suf ∧
          buildConversationHistory (applyAppends [] ops) userId channelId =
            suf.map (fun m => (m.role, m.content)))
    ∧ (cacheGet (applyAppends [] ops) (getContextKey userId channelId) = none →
        buildConversationHistory (applyAppends [] ops) userId channelId = []) := by
  refine ⟨applyAppends_length_inv ops [] (by simp), ?_, ?_, ?_⟩
  · exact buildConversationHistory_length_le _ userId channelId
  · intro ctx hget
    unfold buildConversationHistory
    rw [hget]
    dsimp only
    by_cases hz : ctx.messages.length = 0
    · rw [if_pos hz]
      refine ⟨ctx.messages, [], by simp, by simp⟩
    · rw [if_neg hz]
      refine ⟨ctx.messages.take (ctx.messages.length - 6),
        ctx.messages.drop (ctx.messages.length - 6), ?_, rfl⟩
      rw [List.take_append_drop]
  · intro hget
    unfold buildConversationHistory
    rw [hget]

theorem conversationCache_bounds_witness :
    (buildConversationHistory (applyAppends [] sampleAppends) "u1" "c1").length ≤ 6
    ∧ buildConversationHistory (applyAppends [] sampleAppends) "u2" "c1" = [] :=
  ⟨(conversationCache_bounds sampleAppends "u1" "c1").2.1,
   (conversationCache_bounds sampleAppends "u2" "c1").2.2.2 (by decide)⟩

end HackoverflowBot
